import Mathlib

/-!
# Verification of the live-frame supervisor (`src/server.py`)

A shallow embedding of the stream supervisor: quality selection
(`pick_stream`), the worker lifecycle (`start_stream_processing`,
`stop_stream_processing`), staleness detection (`_frame_is_stale`), and the
two frame-delivery paths (`mjpeg_generator` and the `frame` endpoint).

Times, frame rates and scale factors are modelled as rationals (the Python
code compares them only for equality and order).  External effects are
modelled explicitly: process spawns and terminations become events in an
event list, the streamlink resolution becomes an oracle argument
(`none` = the call raised, `some streams` = the returned quality map), and
process liveness (`poll() is None`) becomes a boolean input.
-/

namespace Server

/-- Default for the `TWITCH_STREAM_QUALITY` environment variable. -/
def TWITCH_STREAM_QUALITY : String := "best"

/-- Default for the `FRAME_JPEG_QSCALE` environment variable. -/
def FRAME_JPEG_QSCALE : Nat := 2

/-- Default for the `FRAME_FPS` environment variable. -/
def FRAME_FPS : ℚ := 1

/-- Default for the `FRAME_STALE_SECONDS` environment variable. -/
def FRAME_STALE_SECONDS : ℚ := 12

/-- Python `min(a, b)`: `a` when `a <= b`, else `b`. -/
def pymin (a b : ℚ) : ℚ := if a ≤ b then a else b

/-- Python `max(a, b)`: `a` when `a >= b`, else `b`. -/
def pymax (a b : ℚ) : ℚ := if b ≤ a then a else b

/-- `_clamp(n, lo, hi) = max(lo, min(hi, n))`. -/
def clamp (n lo hi : ℚ) : ℚ := pymax lo (pymin hi n)

/-- Python `v or d` for an optional string argument: `None` and the empty
string both fall back to the default. -/
def pyOrStr (v : Option String) (d : String) : String :=
  match v with
  | some s => if s = "" then d else s
  | none => d

/-- Python `v or d` for an optional integer argument: `None` and `0` both
fall back to the default. -/
def pyOrNat (v : Option Nat) (d : Nat) : Nat :=
  match v with
  | some n => if n = 0 then d else n
  | none => d

/-- Python `v or d` for an optional float argument: `None` and `0.0` both
fall back to the default. -/
def pyOrRat (v : Option ℚ) (d : ℚ) : ℚ :=
  match v with
  | some q => if q = 0 then d else q
  | none => d

/-! ## Quality selection (`pick_stream`) -/

/-- The `order` list built at the top of `pick_stream`: the desired quality
followed by the hard-coded fallback labels, in the source's order. -/
def pickOrder (desired : String) : List String :=
  [desired, "source", "1080p60", "1080p", "best", "720p60", "720p", "480p",
   "360p", "worst"]

/-- The `for q in order` loop of `pick_stream`: return the first `q` that is
truthy (non-empty) and present as a key of the quality map, paired with the
mapped stream value. -/
def pickLoop (streams : List (String × String)) : List String → Option (String × String)
  | [] => none
  | q :: rest =>
    match (if q ≠ "" then streams.find? (fun kv => kv.1 = q) else none) with
    | some kv => some (q, kv.2)
    | none => pickLoop streams rest

/-- `pick_stream(streams, desired_quality)`: scan the fallback order, and if
nothing matches fall back to the first available entry; `none` models the
Python `(None, None)` result. -/
def pick_stream (streams : List (String × String)) (desired : String) :
    Option (String × String) :=
  match pickLoop streams (pickOrder desired) with
  | some r => some r
  | none => streams.head?

/-- Characterization of `pick_stream` in the amended spec wording: the first
label of the fixed order list (desired, source, 1080p60, 1080p, best, 720p60,
720p, 480p, 360p, worst) that is non-empty and available, else the first
available entry. -/
def pickSpecAmended (streams : List (String × String)) (desired : String) :
    Option (String × String) :=
  match (pickOrder desired).find?
      (fun q => q ≠ "" && (streams.find? (fun kv => kv.1 = q)).isSome) with
  | some q => (streams.find? (fun kv => kv.1 = q)).map (fun kv => (q, kv.2))
  | none => streams.head?

/-- Modelled from the spec: the fallback order as the spec describes it, with
the generic "best"/"worst" labels coming only after all named resolutions
("then decreasing named resolutions, then generic best/worst").  It differs
from the source's `order`, which places "best" between the 1080p entries and
the 720p entries. -/
def pickOrderSpecClaim (desired : String) : List String :=
  [desired, "source", "1080p60", "1080p", "720p60", "720p", "480p", "360p",
   "best", "worst"]

/-- Modelled from the spec: quality selection as the spec's sentence
describes it, scanning `pickOrderSpecClaim` and then falling back to the
first available entry. -/
def pickSpecClaim (streams : List (String × String)) (desired : String) :
    Option (String × String) :=
  match pickLoop streams (pickOrderSpecClaim desired) with
  | some r => some r
  | none => streams.head?

theorem pickLoop_eq_find (streams : List (String × String)) (l : List String) :
    pickLoop streams l =
      (l.find? (fun q => q ≠ "" && (streams.find? (fun kv => kv.1 = q)).isSome)).bind
        (fun q => (streams.find? (fun kv => kv.1 = q)).map (fun kv => (q, kv.2))) := by
  induction l with
  | nil => simp [pickLoop]
  | cons q rest ih =>
    by_cases hq : q = ""
    · subst hq
      simpa [pickLoop] using ih
    · rw [pickLoop, if_pos hq]
      rcases h : streams.find? (fun kv => kv.1 = q) with _ | kv
      · rw [List.find?]
        simp [hq, h, ih]
      · rw [List.find?]
        simp [hq, h]

theorem pickLoop_empty (l : List String) : pickLoop [] l = none := by
  induction l with
  | nil => rfl
  | cons q rest ih => simp [pickLoop, ih]

theorem pick_stream_empty_iff (streams : List (String × String)) (desired : String) :
    pick_stream streams desired = none ↔ streams = [] := by
  constructor
  · intro h
    rw [pick_stream] at h
    rcases hl : pickLoop streams (pickOrder desired) with _ | r
    · rw [hl] at h
      simpa using h
    · rw [hl] at h
      simp at h
  · intro h
    subst h
    rw [pick_stream, pickLoop_empty]
    rfl

theorem pick_stream_desired_first (streams : List (String × String))
    (desired : String) (hne : desired ≠ "")
    (kv : String × String) (hfind : streams.find? (fun p => p.1 = desired) = some kv) :
    pick_stream streams desired = some (desired, kv.2) := by
  rw [pick_stream, pickOrder, pickLoop, if_pos hne, hfind]

/-! ## Supervisor state and lifecycle -/

/-- The requested transcoding parameters, after the defaulting and clamping
done at the top of `start_stream_processing`: the `desired_*` locals. -/
structure Target where
  streamer : String
  quality : String
  qscale : Nat
  fps : ℚ
  scale : ℚ
deriving DecidableEq, Repr

/-- The module-level supervisor state: `current_process` (as the spawned
process id), the five `current_*` target fields, and `last_restart_time`. -/
structure SupState where
  current_process : Option Nat
  current_streamer : Option String
  current_quality : Option String
  current_qscale : Option Nat
  current_fps : Option ℚ
  current_scale : Option ℚ
  last_restart_time : ℚ
deriving DecidableEq, Repr

/-- Externally visible process-lifecycle effects of a supervisor call:
stopping (terminate, bounded wait, kill on timeout) an existing worker, and
spawning a new `ffmpeg` worker. -/
inductive SupEvent where
  | stop (pid : Nat)
  | spawn (pid : Nat)
deriving DecidableEq, Repr

/-- The five-field comparison `current_streamer == streamer_name and
current_quality == desired_quality and ...` shared by the idempotency and
rate-limit checks of `start_stream_processing`. -/
def sameTargetState (st : SupState) (T : Target) : Prop :=
  st.current_streamer = some T.streamer ∧ st.current_quality = some T.quality ∧
  st.current_qscale = some T.qscale ∧ st.current_fps = some T.fps ∧
  st.current_scale = some T.scale

instance (st : SupState) (T : Target) : Decidable (sameTargetState st T) := by
  unfold sameTargetState
  exact inferInstance

/-- `stop_stream_processing()`: if a worker exists, terminate it (escalating
to a kill on timeout, both folded into one `stop` event) and clear the
handle; then unconditionally clear all five `current_*` target fields. -/
def stop_stream_processing (st : SupState) : SupState × List SupEvent :=
  let cleared : Option Nat × List SupEvent :=
    match st.current_process with
    | some pid => (none, [SupEvent.stop pid])
    | none => (st.current_process, [])
  ({ current_process := cleared.1
     current_streamer := none
     current_quality := none
     current_qscale := none
     current_fps := none
     current_scale := none
     last_restart_time := st.last_restart_time }, cleared.2)

/-- The body of `start_stream_processing` after the `desired_*` locals have
been computed: the idempotency check, the rate-limit check, the stop of any
existing worker, the reset of the `current_*` fields, the resolution of a
stream URL, and the spawn.  `now` is `time.time()`, `procAlive` the result
of `current_process.poll() is None`, `resolved` the outcome of
`session.streams(...)` (`none` = the call raised), and `newPid` the id of
the process a successful `subprocess.Popen` creates. -/
def start_with_desired (st : SupState) (now : ℚ) (desired : Target)
    (procAlive : Bool) (resolved : Option (List (String × String)))
    (newPid : Nat) : SupState × List SupEvent :=
  if sameTargetState st desired ∧ st.current_process.isSome = true ∧
      procAlive = true then
    (st, [])
  else if now - st.last_restart_time < 10 ∧ sameTargetState st desired then
    (st, [])
  else
    let stopped :=
      if st.current_process.isSome = true then stop_stream_processing st
      else (st, [])
    let st2 : SupState :=
      { current_process := stopped.1.current_process
        current_streamer := some desired.streamer
        current_quality := some desired.quality
        current_qscale := some desired.qscale
        current_fps := some desired.fps
        current_scale := some desired.scale
        last_restart_time := now }
    match resolved with
    | none => (st2, stopped.2)
    | some streams =>
      if streams = [] then (st2, stopped.2)
      else
        match pick_stream streams desired.quality with
        | none => (st2, stopped.2)
        | some (quality_used, _url) =>
          ({ st2 with
              current_quality := some quality_used
              current_process := some newPid },
           stopped.2 ++ [SupEvent.spawn newPid])

/-- `start_stream_processing(streamer_name, preferred_quality, image_qscale,
frame_fps, frame_scale)` under the stream lock: compute the `desired_*`
locals (Python `or` defaulting plus the scale clamp) and run the body. -/
def start_stream_processing (st : SupState) (now : ℚ) (streamer_name : String)
    (preferred_quality : Option String) (image_qscale : Option Nat)
    (frame_fps : Option ℚ) (frame_scale : Option ℚ)
    (procAlive : Bool) (resolved : Option (List (String × String)))
    (newPid : Nat) : SupState × List SupEvent :=
  start_with_desired st now
    { streamer := streamer_name
      quality := pyOrStr preferred_quality TWITCH_STREAM_QUALITY
      qscale := pyOrNat image_qscale FRAME_JPEG_QSCALE
      fps := pyOrRat frame_fps FRAME_FPS
      scale := clamp (frame_scale.getD 1) (mkRat 1 4) 1 }
    procAlive resolved newPid

/-- Target fields recorded in the state and a restart timestamp at or after
`t0`: the configuration that makes further same-target calls early-return
while they stay within `t0 + 10`. -/
def targetRecordedSince (st : SupState) (T : Target) (t0 : ℚ) : Prop :=
  sameTargetState st T ∧ t0 ≤ st.last_restart_time

/-- The raw arguments of one `start_stream_processing` call together with
the environment's behaviour during that call (time, process liveness,
resolution outcome, fresh pid). -/
structure StartCall where
  now : ℚ
  streamer : String
  quality : Option String
  qscale : Option Nat
  fps : Option ℚ
  scale : Option ℚ
  alive : Bool
  resolved : Option (List (String × String))
  newPid : Nat
deriving Repr

/-- The `desired_*` target a call computes from its raw arguments. -/
def desiredOf (c : StartCall) : Target :=
  { streamer := c.streamer
    quality := pyOrStr c.quality TWITCH_STREAM_QUALITY
    qscale := pyOrNat c.qscale FRAME_JPEG_QSCALE
    fps := pyOrRat c.fps FRAME_FPS
    scale := clamp (c.scale.getD 1) (mkRat 1 4) 1 }

/-- Run one `StartCall` against a supervisor state. -/
def doCall (st : SupState) (c : StartCall) : SupState × List SupEvent :=
  start_stream_processing st c.now c.streamer c.quality c.qscale c.fps c.scale
    c.alive c.resolved c.newPid

/-- Run a sequence of `start` calls, concatenating their event traces. -/
def runCalls (st : SupState) : List StartCall → SupState × List SupEvent
  | [] => (st, [])
  | c :: cs =>
    let r := doCall st c
    let r2 := runCalls r.1 cs
    (r2.1, r.2 ++ r2.2)

/-- The number of worker spawns in an event trace. -/
def spawnCount (evs : List SupEvent) : Nat :=
  (evs.filter fun e => match e with | SupEvent.spawn _ => true | _ => false).length

/-! ## Staleness detection and the poll-mode heal check -/

/-- The outcome of `os.stat(path)`: success with a modification time, a
`FileNotFoundError`, or any other exception (e.g. a permission error). -/
inductive StatResult where
  | found (mtime : ℚ)
  | notFound
  | otherError
deriving DecidableEq, Repr

/-- `_frame_is_stale(path, stale_seconds)`: missing file is stale, any other
stat error is not stale, otherwise stale iff the mtime age exceeds the
threshold. -/
def frame_is_stale (statRes : StatResult) (now staleSeconds : ℚ) : Bool :=
  match statRes with
  | StatResult.notFound => true
  | StatResult.otherError => false
  | StatResult.found m => decide (now - m > staleSeconds)

/-- The `dead or stale` restart trigger at the top of the `/frame.jpg`
handler: `dead = (not current_process) or (current_process.poll() is not
None)`, `stale = _frame_is_stale(FRAME_PATH, FRAME_STALE_SECONDS)`. -/
def frameHealCheck (hasProc procAlive : Bool) (statRes : StatResult)
    (now : ℚ) : Bool :=
  (!hasProc || !procAlive) || frame_is_stale statRes now FRAME_STALE_SECONDS

/-- Which body the `/frame.jpg` handler serves: the frame file whenever it
exists, else the placeholder if it exists, else a 404. -/
inductive FrameResp where
  | file
  | placeholder
  | notFound
deriving DecidableEq, Repr

/-- The body-selection logic of the `/frame.jpg` handler (after the heal
trigger): `send_file(FRAME_PATH)` whenever the frame file exists, otherwise
the placeholder, otherwise `("Loading...", 404)`.  The bytes of FRAME_PATH
are served as-is, with no content validation. -/
def frameServe (frameExists placeholderExists : Bool) : FrameResp :=
  if frameExists then FrameResp.file
  else if placeholderExists then FrameResp.placeholder
  else FrameResp.notFound

/-! ## Push-mode delivery (`mjpeg_generator`) -/

/-- One yielded piece of the multipart stream, one constructor per `yield`
of `mjpeg_generator`. -/
inductive Chunk where
  | boundary
  | contentType
  | cacheControl
  | pragmaHdr
  | contentLength (n : Nat)
  | payload (data : List Nat)
deriving DecidableEq, Repr

/-- The observed state of `FRAME_PATH` during one loop iteration: `none` if
`os.path.exists` is false, else the mtime `os.path.getmtime` returns (`0` if
that call raises, matching the `except` branch) and the bytes `f.read()`
returns. -/
def FrameFile := Option (ℚ × List Nat)

/-- One iteration of the `while True` loop of `mjpeg_generator`: given the
generator's `last_mtime` and the observed file state, return the updated
`last_mtime` and the chunks yielded this iteration.  A chunk group is
emitted only when the file exists, its mtime is strictly newer than
`last_mtime`, and the read returned non-empty data; `last_mtime` advances as
soon as a newer mtime is seen, even if the data then read is empty. -/
def mjpeg_generator_step (last_mtime : ℚ) (file : FrameFile) :
    ℚ × List Chunk :=
  match file with
  | none => (last_mtime, [])
  | some (mtime, data) =>
    if mtime > last_mtime then
      if data ≠ [] then
        (mtime,
         [Chunk.boundary, Chunk.contentType, Chunk.cacheControl,
          Chunk.pragmaHdr, Chunk.contentLength data.length,
          Chunk.payload data])
      else (mtime, [])
    else (last_mtime, [])

/-- Iterate `mjpeg_generator_step` over a sequence of observed file states,
concatenating the emitted chunks. -/
def mjpeg_generator_run (last_mtime : ℚ) : List FrameFile → ℚ × List Chunk
  | [] => (last_mtime, [])
  | f :: fs =>
    let r := mjpeg_generator_step last_mtime f
    let r2 := mjpeg_generator_run r.1 fs
    (r2.1, r.2 ++ r2.2)

/-- Modelled from the spec: the format-marker validation the spec's Frame
Store describes ("the byte stream begins and ends with the two image-format
marker byte-pairs expected of the encoder's output container").  For the
JPEG container these are SOI `FF D8` at the start and EOI `FF D9` at the
end.  No such check exists anywhere in the source. -/
def jpegMarkersValid (data : List Nat) : Bool :=
  decide (data.take 2 = [255, 216]) &&
  decide (data.drop (data.length - 2) = [255, 217])

/-! ## Theorems about quality selection -/

/-- C5 (amended): quality selection is deterministic and scans the fixed
order desired, source, 1080p60, 1080p, best, 720p60, 720p, 480p, 360p,
worst — with "best" between the 1080p entries and the 720p entries — then
falls back to the first available entry; it returns an empty selection if
and only if the available set is empty. -/
theorem C5_pick_order_amended (streams : List (String × String)) (desired : String) :
    pick_stream streams desired = pickSpecAmended streams desired ∧
    (pick_stream streams desired = none ↔ streams = []) := by
  refine ⟨?_, pick_stream_empty_iff streams desired⟩
  rw [pick_stream, pickSpecAmended, pickLoop_eq_find]
  have hsplit : ∀ (o : Option String) (f : String → Option (String × String))
      (y : Option (String × String)),
      (∀ a, o = some a → (f a).isSome = true) →
      (match o.bind f with | some r => some r | none => y) =
        (match o with | some a => f a | none => y) := by
    intro o f y hall
    cases o with
    | none => rfl
    | some a =>
      rcases hfa : f a with _ | r
      · exact absurd (hall a rfl) (by simp [hfa])
      · simp [Option.bind, hfa]
  apply hsplit
  intro a ha
  have h2 := List.find?_some ha
  simp only [Bool.and_eq_true, decide_eq_true_eq, ne_eq] at h2
  rcases hf : streams.find? (fun kv => kv.1 = a) with _ | kv
  · rw [hf] at h2
    simp at h2
  · rw [hf]
    rfl

/-- C5 (counterexample): with available set {"best", "720p"} and desired
"1080p", the code picks "best", while the spec's stated order (named
resolutions before the generic best/worst labels) would pick "720p". -/
theorem C5_counterexample :
    pick_stream [("best", "ub"), ("720p", "u7")] "1080p" = some ("best", "ub") ∧
    pickSpecClaim [("best", "ub"), ("720p", "u7")] "1080p" = some ("720p", "u7") ∧
    pick_stream [("best", "ub"), ("720p", "u7")] "1080p" ≠
      pickSpecClaim [("best", "ub"), ("720p", "u7")] "1080p" := by
  refine ⟨by decide, by decide, by decide⟩

/-- C5 witness: the amended characterization evaluated at a concrete
available set. -/
theorem C5_pick_order_amended_witness :
    pick_stream [("480p", "u4")] "720p" = pickSpecAmended [("480p", "u4")] "720p" ∧
    (pick_stream [("480p", "u4")] "720p" = none ↔ ([("480p", "u4")] : List (String × String)) = []) :=
  C5_pick_order_amended [("480p", "u4")] "720p"

/-- C6: for the available quality set {"720p","480p","worst"} and desired
label "1080p", selection returns "720p"; for the empty available set it
fails cleanly, returning no quality and no stream object. -/
theorem C6_pick_examples :
    pick_stream [("720p", "u720"), ("480p", "u480"), ("worst", "uw")] "1080p"
      = some ("720p", "u720") ∧
    pick_stream [] "1080p" = none := by
  refine ⟨by decide, by decide⟩

/-! ## Theorems about staleness detection -/

/-- C10: the staleness check returns true exactly for a missing file or a
modification-time age exceeding the threshold; any other stat error (e.g. a
permission error) yields false, so an unreadable-but-present frame file
never makes the poll-mode heal check fire on its own (live process, stat
error: no restart is triggered). -/
theorem C10_stale_characterization (r : StatResult) (now th : ℚ) :
    (frame_is_stale r now th = true ↔
      r = StatResult.notFound ∨ ∃ m, r = StatResult.found m ∧ now - m > th) ∧
    frame_is_stale StatResult.otherError now th = false ∧
    frameHealCheck true true StatResult.otherError now = false := by
  refine ⟨?_, rfl, rfl⟩
  cases r <;> simp [frame_is_stale]

/-! ## Theorems about frame delivery -/

/-- C8: the push-mode generator emits a chunk group only when the frame
file's mtime token strictly advances: an unchanged file yields zero chunks
(also across any number of repeated polling iterations), and every emitted
group is the fixed boundary delimiter followed by headers including a
per-chunk content length and the payload. -/
theorem C8_mjpeg_emits_only_on_change :
    (∀ (last m : ℚ) (d : List Nat), m ≤ last →
        mjpeg_generator_step last (some (m, d)) = (last, [])) ∧
    (∀ (last : ℚ) (file : FrameFile) (c : Chunk) (cs : List Chunk) (last' : ℚ),
        mjpeg_generator_step last file = (last', c :: cs) →
        ∃ m d, file = some (m, d) ∧ m > last ∧
          c :: cs = [Chunk.boundary, Chunk.contentType, Chunk.cacheControl,
                     Chunk.pragmaHdr, Chunk.contentLength d.length,
                     Chunk.payload d]) ∧
    (∀ (last m : ℚ) (d : List Nat) (n : Nat), m ≤ last →
        mjpeg_generator_run last (List.replicate n (some (m, d))) = (last, [])) := by
  have hstep : ∀ (last m : ℚ) (d : List Nat), m ≤ last →
      mjpeg_generator_step last (some (m, d)) = (last, []) := by
    intro last m d h
    simp [mjpeg_generator_step, not_lt.mpr h]
  refine ⟨hstep, ?_, ?_⟩
  · intro last file c cs last' h
    match file with
    | none => simp [mjpeg_generator_step] at h
    | some (m, d) =>
      refine ⟨m, d, rfl, ?_, ?_⟩
      · by_contra hm
        rw [hstep last m d (not_lt.mp hm)] at h
        simp at h
      · rw [mjpeg_generator_step] at h
        split at h
        · split at h
          · exact (congrArg Prod.snd h).symm
          · simp at h
        · simp at h
  · intro last m d n h
    induction n with
    | zero => rfl
    | succ k ih =>
      rw [List.replicate_succ, mjpeg_generator_run, hstep last m d h]
      simpa using ih

/-- C8 witness: a concrete unchanged file yields zero chunks, once and over
four repeated iterations. -/
theorem C8_mjpeg_witness :
    mjpeg_generator_step 5 (some (3, [1, 2])) = (5, []) ∧
    mjpeg_generator_run 5 (List.replicate 4 (some (3, [1, 2]))) = (5, []) :=
  ⟨C8_mjpeg_emits_only_on_change.1 5 3 [1, 2] (by norm_num),
   C8_mjpeg_emits_only_on_change.2.2 5 3 [1, 2] 4 (by norm_num)⟩

/-- C1 (amended): the delivery paths perform no format-marker validation and
keep no in-memory shadow: whenever the frame file exists, its mtime is newer
than the last seen one, and the read returns non-empty bytes, the push-mode
generator emits exactly those bytes unchanged whatever their content, and
the poll-mode endpoint serves the on-disk file whenever it exists.
Torn-write protection is instead delegated to the worker's atomic-writing
output option. -/
theorem C1_delivery_amended (last m : ℚ) (d : List Nat) (hm : m > last)
    (hd : d ≠ []) :
    (mjpeg_generator_step last (some (m, d))).2 =
      [Chunk.boundary, Chunk.contentType, Chunk.cacheControl, Chunk.pragmaHdr,
       Chunk.contentLength d.length, Chunk.payload d] ∧
    frameServe true true = FrameResp.file ∧
    frameServe true false = FrameResp.file := by
  refine ⟨?_, rfl, rfl⟩
  simp [mjpeg_generator_step, hm, hd]

/-- C1 (counterexample): a one-byte file `[0]`, freshly written, is emitted
verbatim by the push-mode generator although it fails the format-marker
validation check the claim says every returned read passes. -/
theorem C1_counterexample :
    (mjpeg_generator_step 0 (some (1, [0]))).2 =
      [Chunk.boundary, Chunk.contentType, Chunk.cacheControl, Chunk.pragmaHdr,
       Chunk.contentLength 1, Chunk.payload [0]] ∧
    jpegMarkersValid [0] = false := by
  refine ⟨by decide, by decide⟩

/-- C1 witness: the amended statement at a concrete non-JPEG byte string. -/
theorem C1_delivery_amended_witness :
    (mjpeg_generator_step 2 (some (3, [7, 7]))).2 =
      [Chunk.boundary, Chunk.contentType, Chunk.cacheControl, Chunk.pragmaHdr,
       Chunk.contentLength 2, Chunk.payload [7, 7]] ∧
    frameServe true true = FrameResp.file ∧
    frameServe true false = FrameResp.file :=
  C1_delivery_amended 2 3 [7, 7] (by norm_num) (by simp)

/-! ## Helper lemmas about the supervisor -/

theorem doCall_eq (st : SupState) (c : StartCall) :
    doCall st c =
      start_with_desired st c.now (desiredOf c) c.alive c.resolved c.newPid :=
  rfl

theorem pyOrStr_default_ne_empty (v : Option String) :
    pyOrStr v TWITCH_STREAM_QUALITY ≠ "" := by
  cases v with
  | none => simp [pyOrStr, TWITCH_STREAM_QUALITY]
  | some s =>
    by_cases h : s = "" <;> simp [pyOrStr, h, TWITCH_STREAM_QUALITY]

theorem spawnCount_append (a b : List SupEvent) :
    spawnCount (a ++ b) = spawnCount a + spawnCount b := by
  simp [spawnCount]

theorem spawnCount_stop_events (st : SupState) :
    spawnCount (stop_stream_processing st).2 = 0 := by
  rcases h : st.current_process with _ | pid <;>
    simp [stop_stream_processing, h, spawnCount]

theorem spawnCount_spawn_singleton (pid : Nat) :
    spawnCount [SupEvent.spawn pid] = 1 := rfl

theorem spawnCount_stopped (st : SupState) :
    spawnCount
      (if st.current_process.isSome = true then stop_stream_processing st
       else (st, [])).2 = 0 := by
  split
  · exact spawnCount_stop_events st
  · rfl

theorem stopped_process_none (st : SupState) :
    (if st.current_process.isSome = true then stop_stream_processing st
     else (st, [])).1.current_process = none := by
  rcases h : st.current_process with _ | pid
  · simp [h]
  · simp [h, stop_stream_processing]

theorem startWD_idempotent (st : SupState) (now : ℚ) (T : Target)
    (procAlive : Bool) (resolved : Option (List (String × String)))
    (newPid : Nat) (hT : sameTargetState st T)
    (hp : st.current_process.isSome = true) (ha : procAlive = true) :
    start_with_desired st now T procAlive resolved newPid = (st, []) := by
  rw [start_with_desired, if_pos ⟨hT, hp, ha⟩]

theorem startWD_early_return (st : SupState) (now : ℚ) (T : Target)
    (procAlive : Bool) (resolved : Option (List (String × String)))
    (newPid : Nat) (hT : sameTargetState st T)
    (hlt : now - st.last_restart_time < 10) :
    start_with_desired st now T procAlive resolved newPid = (st, []) := by
  rw [start_with_desired]
  by_cases h1 : sameTargetState st T ∧ st.current_process.isSome = true ∧
      procAlive = true
  · rw [if_pos h1]
  · rw [if_neg h1, if_pos ⟨hlt, hT⟩]

theorem startWD_spawn_bound (st : SupState) (now : ℚ) (T : Target)
    (procAlive : Bool) (resolved : Option (List (String × String)))
    (newPid : Nat) :
    spawnCount (start_with_desired st now T procAlive resolved newPid).2 ≤ 1 := by
  rw [start_with_desired]
  split
  · simp [spawnCount]
  · split
    · simp [spawnCount]
    · rcases resolved with _ | streams
      · dsimp only
        rw [spawnCount_stopped st]
        norm_num
      · dsimp only
        split
        · rw [spawnCount_stopped st]
          norm_num
        · split
          · rw [spawnCount_stopped st]
            norm_num
          · dsimp only
            rw [spawnCount_append, spawnCount_stopped st,
              spawnCount_spawn_singleton]

theorem startWD_post_spawn (st : SupState) (now : ℚ) (T : Target)
    (procAlive : Bool) (resolved : Option (List (String × String)))
    (newPid : Nat)
    (hq : ∀ s, resolved = some s → s ≠ [] →
        (s.find? (fun p => p.1 = T.quality)).isSome = true)
    (hne : T.quality ≠ "")
    (hspawn : 1 ≤ spawnCount
        (start_with_desired st now T procAlive resolved newPid).2) :
    sameTargetState
        (start_with_desired st now T procAlive resolved newPid).1 T ∧
    (start_with_desired st now T procAlive resolved newPid).1.last_restart_time
        = now := by
  by_cases h1 : sameTargetState st T ∧ st.current_process.isSome = true ∧
      procAlive = true
  · rw [start_with_desired, if_pos h1] at hspawn
    simp [spawnCount] at hspawn
  · by_cases h2 : now - st.last_restart_time < 10 ∧ sameTargetState st T
    · rw [start_with_desired, if_neg h1, if_pos h2] at hspawn
      simp [spawnCount] at hspawn
    · rcases resolved with _ | streams
      · rw [start_with_desired, if_neg h1, if_neg h2] at hspawn
        dsimp only at hspawn
        rw [spawnCount_stopped st] at hspawn
        omega
      · by_cases hs : streams = []
        · rw [start_with_desired, if_neg h1, if_neg h2] at hspawn
          dsimp only at hspawn
          rw [if_pos hs, spawnCount_stopped st] at hspawn
          omega
        · have hfind := hq streams rfl hs
          rcases hkv : streams.find? (fun p => p.1 = T.quality) with _ | kv
          · rw [hkv] at hfind
            simp at hfind
          · have hpick := pick_stream_desired_first streams T.quality hne kv hkv
            rw [start_with_desired, if_neg h1, if_neg h2]
            dsimp only
            rw [if_neg hs, hpick]
            exact ⟨⟨rfl, rfl, rfl, rfl, rfl⟩, rfl⟩

theorem startWD_spawn_on_success (st : SupState) (now : ℚ) (T : Target)
    (procAlive : Bool) (s : List (String × String)) (newPid : Nat)
    (hni : ¬(sameTargetState st T ∧ st.current_process.isSome = true ∧
        procAlive = true))
    (hnt : ¬(now - st.last_restart_time < 10 ∧ sameTargetState st T))
    (hs : s ≠ []) :
    spawnCount (start_with_desired st now T procAlive (some s) newPid).2 = 1 := by
  rw [start_with_desired, if_neg hni, if_neg hnt]
  dsimp only
  rw [if_neg hs]
  rcases hp : pick_stream s T.quality with _ | qu
  · exact absurd ((pick_stream_empty_iff s T.quality).mp hp) hs
  · rcases qu with ⟨q, u⟩
    dsimp only
    rw [spawnCount_append, spawnCount_stopped st, spawnCount_spawn_singleton]

theorem startWD_spawn_branch (st : SupState) (now : ℚ) (T : Target)
    (procAlive : Bool) (streams : List (String × String)) (newPid : Nat)
    (q u : String)
    (hni : ¬(sameTargetState st T ∧ st.current_process.isSome = true ∧
        procAlive = true))
    (hnt : ¬(now - st.last_restart_time < 10 ∧ sameTargetState st T))
    (hs : streams ≠ [])
    (hpick : pick_stream streams T.quality = some (q, u)) :
    start_with_desired st now T procAlive (some streams) newPid =
      ({ current_process := some newPid
         current_streamer := some T.streamer
         current_quality := some q
         current_qscale := some T.qscale
         current_fps := some T.fps
         current_scale := some T.scale
         last_restart_time := now },
       (if st.current_process.isSome = true then stop_stream_processing st
        else (st, [])).2 ++ [SupEvent.spawn newPid]) := by
  rw [start_with_desired, if_neg hni, if_neg hnt]
  dsimp only
  rw [if_neg hs, hpick]

theorem startWD_resolution_failure (st : SupState) (now : ℚ) (T : Target)
    (procAlive : Bool) (resolved : Option (List (String × String)))
    (newPid : Nat)
    (hni : ¬(sameTargetState st T ∧ st.current_process.isSome = true ∧
        procAlive = true))
    (hnt : ¬(now - st.last_restart_time < 10 ∧ sameTargetState st T))
    (hfail : resolved = none ∨ resolved = some []) :
    sameTargetState
        (start_with_desired st now T procAlive resolved newPid).1 T ∧
    (start_with_desired st now T procAlive resolved newPid).1.current_process
        = none ∧
    spawnCount (start_with_desired st now T procAlive resolved newPid).2 = 0 := by
  rw [start_with_desired, if_neg hni, if_neg hnt]
  rcases hfail with h | h <;> rw [h] <;> dsimp only
  · exact ⟨⟨rfl, rfl, rfl, rfl, rfl⟩, stopped_process_none st,
      spawnCount_stopped st⟩
  · rw [if_pos rfl]
    exact ⟨⟨rfl, rfl, rfl, rfl, rfl⟩, stopped_process_none st,
      spawnCount_stopped st⟩

theorem runCalls_stable (T : Target) (t0 : ℚ) :
    ∀ (calls : List StartCall) (st : SupState),
    (∀ c ∈ calls, desiredOf c = T) →
    (∀ c ∈ calls, c.now < t0 + 10) →
    targetRecordedSince st T t0 →
    runCalls st calls = (st, []) := by
  intro calls
  induction calls with
  | nil => intro st _ _ _; rfl
  | cons c cs ih =>
    intro st hT htime hQ
    have hc : doCall st c = (st, []) := by
      rw [doCall_eq, hT c (List.mem_cons_self c cs)]
      apply startWD_early_return _ _ _ _ _ _ hQ.1
      have h1 := htime c (List.mem_cons_self c cs)
      have h2 := hQ.2
      linarith
    simp only [runCalls, hc]
    rw [ih st (fun d hd => hT d (List.mem_cons_of_mem c hd))
        (fun d hd => htime d (List.mem_cons_of_mem c hd)) hQ]
    rfl

theorem runCalls_spawn_bound (T : Target) (t0 : ℚ) :
    ∀ (calls : List StartCall) (st : SupState),
    (∀ c ∈ calls, desiredOf c = T) →
    (∀ c ∈ calls, t0 ≤ c.now ∧ c.now < t0 + 10) →
    (∀ c ∈ calls, ∀ s, c.resolved = some s → s ≠ [] →
        (s.find? (fun kv => kv.1 = T.quality)).isSome = true) →
    spawnCount (runCalls st calls).2 ≤ 1 := by
  intro calls
  induction calls with
  | nil => intro st _ _ _; simp [runCalls, spawnCount]
  | cons c cs ih =>
    intro st hT htime hres
    have hTc := hT c (List.mem_cons_self c cs)
    have hdc : doCall st c =
        start_with_desired st c.now T c.alive c.resolved c.newPid := by
      rw [doCall_eq, hTc]
    have hbound : spawnCount (doCall st c).2 ≤ 1 := by
      rw [hdc]
      exact startWD_spawn_bound st c.now T c.alive c.resolved c.newPid
    simp only [runCalls]
    rw [spawnCount_append]
    rcases Nat.eq_zero_or_pos (spawnCount (doCall st c).2) with h0 | h1
    · rw [h0, Nat.zero_add]
      exact ih (doCall st c).1 (fun d hd => hT d (List.mem_cons_of_mem c hd))
        (fun d hd => htime d (List.mem_cons_of_mem c hd))
        (fun d hd => hres d (List.mem_cons_of_mem c hd))
    · have hne : T.quality ≠ "" := by
        have hTq : T.quality = pyOrStr c.quality TWITCH_STREAM_QUALITY := by
          rw [← hTc]
          rfl
        rw [hTq]
        exact pyOrStr_default_ne_empty c.quality

      have hpost := startWD_post_spawn st c.now T c.alive c.resolved c.newPid
        (hres c (List.mem_cons_self c cs)) hne (by rw [← hdc]; exact h1)
      have hQ : targetRecordedSince (doCall st c).1 T t0 := by
        refine ⟨by rw [hdc]; exact hpost.1, ?_⟩
        rw [hdc, hpost.2]
        exact (htime c (List.mem_cons_self c cs)).1
      rw [runCalls_stable T t0 cs (doCall st c).1
        (fun d hd => hT d (List.mem_cons_of_mem c hd))
        (fun d hd => (htime d (List.mem_cons_of_mem c hd)).2) hQ]
      simpa [spawnCount] using hbound

/-! ## Theorems about the supervisor lifecycle -/

/-- C2: whenever `start(B)` runs while a worker process exists and the
requested target B differs from the recorded target A on any of the five
fields (streamer, quality, image quality, fps or scale), the event trace
first stops the A-worker and only afterwards, possibly, spawns the
B-worker: never two workers alive simultaneously, and the single
`current_process` handle holds at most one worker at a time. -/
theorem C2_single_flight (st : SupState) (c : StartCall) (p : Nat)
    (hp : st.current_process = some p)
    (hnsame : ¬ sameTargetState st (desiredOf c)) :
    (doCall st c).2 = [SupEvent.stop p] ∨
    (doCall st c).2 = [SupEvent.stop p, SupEvent.spawn c.newPid] := by
  have hpt : st.current_process.isSome = true := by rw [hp]; rfl
  have hstopev : (stop_stream_processing st).2 = [SupEvent.stop p] := by
    simp [stop_stream_processing, hp]
  rcases hres : c.resolved with _ | streams
  · left
    rw [doCall_eq, start_with_desired, if_neg (fun h => hnsame h.1),
      if_neg (fun h => hnsame h.2), hres]
    dsimp only
    rw [if_pos hpt, hstopev]
  · by_cases hs : streams = []
    · left
      rw [doCall_eq, start_with_desired, if_neg (fun h => hnsame h.1),
        if_neg (fun h => hnsame h.2), hres]
      dsimp only
      rw [if_pos hs]
      dsimp only
      rw [if_pos hpt, hstopev]
    · rcases hpick : pick_stream streams (desiredOf c).quality with _ | qu
      · exact absurd ((pick_stream_empty_iff streams (desiredOf c).quality).mp
          hpick) hs
      · rcases qu with ⟨q, u⟩
        right
        rw [doCall_eq, start_with_desired, if_neg (fun h => hnsame h.1),
          if_neg (fun h => hnsame h.2), hres]
        dsimp only
        rw [if_neg hs, hpick]
        dsimp only
        rw [if_pos hpt, hstopev]
        rfl

/-- C2 witness: a live worker for "alpha" at "best" and a request for the
same streamer at "720p" — a target differing only in the quality field. -/
theorem C2_single_flight_witness :
    (doCall ⟨some 5, some "alpha", some "best", some 2, some 1, some 1, 0⟩
        { now := 0, streamer := "alpha", quality := some "720p",
          qscale := some 2, fps := some 1, scale := some 1, alive := true,
          resolved := some [("720p", "u")], newPid := 9 }).2 =
      [SupEvent.stop 5] ∨
    (doCall ⟨some 5, some "alpha", some "best", some 2, some 1, some 1, 0⟩
        { now := 0, streamer := "alpha", quality := some "720p",
          qscale := some 2, fps := some 1, scale := some 1, alive := true,
          resolved := some [("720p", "u")], newPid := 9 }).2 =
      [SupEvent.stop 5, SupEvent.spawn 9] :=
  C2_single_flight _ _ 5 rfl (by decide)

/-- C4: `start` is idempotent: if the recorded target equals the requested
target on all five fields and the worker process is still alive, the call
returns immediately, spawning and stopping nothing and leaving the
supervisor state unchanged — regardless of how the recorded quality label
was obtained. -/
theorem C4_start_idempotent (st : SupState) (c : StartCall)
    (hT : sameTargetState st (desiredOf c))
    (hp : st.current_process.isSome = true) (ha : c.alive = true) :
    doCall st c = (st, []) := by
  rw [doCall_eq]
  exact startWD_idempotent st c.now (desiredOf c) c.alive c.resolved c.newPid
    hT hp ha

/-- C4 witness: the recorded quality "720p" (as a fallback resolution would
record it) requested again while the worker is alive. -/
theorem C4_start_idempotent_witness :
    doCall ⟨some 5, some "alpha", some "720p", some 2, some 1, some 1, 0⟩
        { now := 3, streamer := "alpha", quality := some "720p",
          qscale := some 2, fps := some 1, scale := some 1, alive := true,
          resolved := none, newPid := 9 } =
      (⟨some 5, some "alpha", some "720p", some 2, some 1, some 1, 0⟩, []) :=
  C4_start_idempotent _ _ (by decide) rfl rfl

/-- C7: a `start` call that reaches resolution and fails there (the
streamlink call raised, or it reported no streams) leaves the requested
Channel Target recorded in the supervisor state for future retries, with no
worker process handle and no spawn. -/
theorem C7_resolution_failure_pending (st : SupState) (c : StartCall)
    (hni : ¬(sameTargetState st (desiredOf c) ∧
        st.current_process.isSome = true ∧ c.alive = true))
    (hnt : ¬(c.now - st.last_restart_time < 10 ∧
        sameTargetState st (desiredOf c)))
    (hfail : c.resolved = none ∨ c.resolved = some []) :
    sameTargetState (doCall st c).1 (desiredOf c) ∧
    (doCall st c).1.current_process = none ∧
    spawnCount (doCall st c).2 = 0 := by
  rw [doCall_eq]
  exact startWD_resolution_failure st c.now (desiredOf c) c.alive c.resolved
    c.newPid hni hnt hfail

/-- C7 witness: a first-ever call whose resolution reports no streams. -/
theorem C7_resolution_failure_witness :
    sameTargetState
        (doCall ⟨none, none, none, none, none, none, 0⟩
          { now := 0, streamer := "alpha", quality := some "1080p",
            qscale := some 2, fps := some 1, scale := some 1, alive := true,
            resolved := some [], newPid := 9 }).1
        (desiredOf
          { now := 0, streamer := "alpha", quality := some "1080p",
            qscale := some 2, fps := some 1, scale := some 1, alive := true,
            resolved := some [], newPid := 9 }) ∧
    (doCall ⟨none, none, none, none, none, none, 0⟩
        { now := 0, streamer := "alpha", quality := some "1080p",
          qscale := some 2, fps := some 1, scale := some 1, alive := true,
          resolved := some [], newPid := 9 }).1.current_process = none ∧
    spawnCount
      (doCall ⟨none, none, none, none, none, none, 0⟩
        { now := 0, streamer := "alpha", quality := some "1080p",
          qscale := some 2, fps := some 1, scale := some 1, alive := true,
          resolved := some [], newPid := 9 }).2 = 0 :=
  C7_resolution_failure_pending _ _ (by decide)
    (by
      intro h
      have h2 := h.2
      simp [sameTargetState] at h2)
    (Or.inr rfl)

/-- C3 (amended): among any sequence of `start` calls for one and the same
target, all issued within one `min_interval` (10 s) window of the first and
whose successful resolutions offer the requested label itself, at most one
worker spawn occurs; and a call whose desired target differs from the
recorded one is never throttled by this budget — if its resolution succeeds
it spawns even immediately after a restart.  (When a resolution falls back
to a different quality label than the requested one, the budget does not
hold and a same-target call can respawn at once.) -/
theorem C3_restart_budget_amended :
    (∀ (st : SupState) (calls : List StartCall) (T : Target) (t0 : ℚ),
      (∀ c ∈ calls, desiredOf c = T) →
      (∀ c ∈ calls, t0 ≤ c.now ∧ c.now < t0 + 10) →
      (∀ c ∈ calls, ∀ s, c.resolved = some s → s ≠ [] →
          (s.find? (fun kv => kv.1 = T.quality)).isSome = true) →
      spawnCount (runCalls st calls).2 ≤ 1) ∧
    (∀ (st : SupState) (c : StartCall) (s : List (String × String)),
      ¬ sameTargetState st (desiredOf c) →
      c.resolved = some s → s ≠ [] →
      spawnCount (doCall st c).2 = 1) := by
  constructor
  · intro st calls T t0 hT htime hres
    exact runCalls_spawn_bound T t0 calls st hT htime hres
  · intro st c s hns hres hs
    rw [doCall_eq, hres]
    exact startWD_spawn_on_success st c.now (desiredOf c) c.alive s c.newPid
      (fun h => hns h.1) (fun h => hns h.2) hs

/-- C3 (counterexample): two `start` calls with the identical requested
target ("alpha" at "1080p"), issued 1 second apart, both resolving only
{"720p"}: the fallback records "720p" as the current quality, so the second
call fails both the idempotency and the rate-limit comparison and a second
spawn occurs within the minimum restart interval. -/
theorem C3_counterexample :
    desiredOf
        { now := 0, streamer := "alpha", quality := some "1080p",
          qscale := some 2, fps := some 1, scale := some 1, alive := true,
          resolved := some [("720p", "u")], newPid := 1 } =
      desiredOf
        { now := 1, streamer := "alpha", quality := some "1080p",
          qscale := some 2, fps := some 1, scale := some 1, alive := true,
          resolved := some [("720p", "u")], newPid := 2 } ∧
    (1 : ℚ) - 0 < 10 ∧
    spawnCount
      (runCalls ⟨none, none, none, none, none, none, 0⟩
        [{ now := 0, streamer := "alpha", quality := some "1080p",
           qscale := some 2, fps := some 1, scale := some 1, alive := true,
           resolved := some [("720p", "u")], newPid := 1 },
         { now := 1, streamer := "alpha", quality := some "1080p",
           qscale := some 2, fps := some 1, scale := some 1, alive := true,
           resolved := some [("720p", "u")], newPid := 2 }]).2 = 2 := by
  refine ⟨rfl, by norm_num, ?_⟩
  have hd1 : doCall (⟨none, none, none, none, none, none, 0⟩ : SupState)
      { now := 0, streamer := "alpha", quality := some "1080p",
        qscale := some 2, fps := some 1, scale := some 1, alive := true,
        resolved := some [("720p", "u")], newPid := 1 } =
      (⟨some 1, some "alpha", some "720p", some 2, some 1, some 1, 0⟩,
       [SupEvent.spawn 1]) := by
    rw [doCall_eq]
    dsimp only
    rw [startWD_spawn_branch ⟨none, none, none, none, none, none, 0⟩ 0
      (desiredOf
        { now := 0, streamer := "alpha", quality := some "1080p",
          qscale := some 2, fps := some 1, scale := some 1, alive := true,
          resolved := some [("720p", "u")], newPid := 1 })
      true [("720p", "u")] 1 "720p" "u"
      (by intro h; have h1 := h.1; simp [sameTargetState] at h1)
      (by intro h; have h2 := h.2; simp [sameTargetState] at h2)
      (by simp) (by decide)]
    rfl
  have hd2 : doCall
      (⟨some 1, some "alpha", some "720p", some 2, some 1, some 1, 0⟩ :
        SupState)
      { now := 1, streamer := "alpha", quality := some "1080p",
        qscale := some 2, fps := some 1, scale := some 1, alive := true,
        resolved := some [("720p", "u")], newPid := 2 } =
      (⟨some 2, some "alpha", some "720p", some 2, some 1, some 1, 1⟩,
       [SupEvent.stop 1, SupEvent.spawn 2]) := by
    rw [doCall_eq]
    dsimp only
    rw [startWD_spawn_branch
      ⟨some 1, some "alpha", some "720p", some 2, some 1, some 1, 0⟩ 1
      (desiredOf
        { now := 1, streamer := "alpha", quality := some "1080p",
          qscale := some 2, fps := some 1, scale := some 1, alive := true,
          resolved := some [("720p", "u")], newPid := 2 })
      true [("720p", "u")] 2 "720p" "u"
      (by
        intro h
        have h1 := h.1.2.1
        simp [desiredOf, pyOrStr, TWITCH_STREAM_QUALITY] at h1)
      (by
        intro h
        have h2 := h.2.2.1
        simp [desiredOf, pyOrStr, TWITCH_STREAM_QUALITY] at h2)
      (by simp) (by decide)]
    rfl
  have hrun : (runCalls (⟨none, none, none, none, none, none, 0⟩ : SupState)
      [{ now := 0, streamer := "alpha", quality := some "1080p",
         qscale := some 2, fps := some 1, scale := some 1, alive := true,
         resolved := some [("720p", "u")], newPid := 1 },
       { now := 1, streamer := "alpha", quality := some "1080p",
         qscale := some 2, fps := some 1, scale := some 1, alive := true,
         resolved := some [("720p", "u")], newPid := 2 }]).2 =
      (doCall (⟨none, none, none, none, none, none, 0⟩ : SupState)
        { now := 0, streamer := "alpha", quality := some "1080p",
          qscale := some 2, fps := some 1, scale := some 1, alive := true,
          resolved := some [("720p", "u")], newPid := 1 }).2 ++
      ((doCall
          (doCall (⟨none, none, none, none, none, none, 0⟩ : SupState)
            { now := 0, streamer := "alpha", quality := some "1080p",
              qscale := some 2, fps := some 1, scale := some 1, alive := true,
              resolved := some [("720p", "u")], newPid := 1 }).1
          { now := 1, streamer := "alpha", quality := some "1080p",
            qscale := some 2, fps := some 1, scale := some 1, alive := true,
            resolved := some [("720p", "u")], newPid := 2 }).2 ++ []) := rfl
  rw [hrun, hd1]
  dsimp only
  rw [hd2]
  decide

/-- C3 witness: two same-target calls 1 s apart with exact resolutions spawn
at most once, and a call for a new target spawns despite a fresh restart
timestamp. -/
theorem C3_restart_budget_witness :
    spawnCount
      (runCalls ⟨none, none, none, none, none, none, 0⟩
        [{ now := 0, streamer := "alpha", quality := some "720p",
           qscale := some 2, fps := some 1, scale := some 1, alive := true,
           resolved := some [("720p", "u")], newPid := 1 },
         { now := 1, streamer := "alpha", quality := some "720p",
           qscale := some 2, fps := some 1, scale := some 1, alive := false,
           resolved := some [("720p", "u")], newPid := 2 }]).2 ≤ 1 ∧
    spawnCount
      (doCall ⟨some 5, some "alpha", some "720p", some 2, some 1, some 1, 0⟩
        { now := 1, streamer := "beta", quality := some "720p",
          qscale := some 2, fps := some 1, scale := some 1, alive := true,
          resolved := some [("720p", "u")], newPid := 3 }).2 = 1 := by
  constructor
  · refine C3_restart_budget_amended.1 _ _ ⟨"alpha", "720p", 2, 1, 1⟩ 0 ?_ ?_ ?_
    · intro c hc
      simp only [List.mem_cons, List.not_mem_nil, or_false] at hc
      rcases hc with rfl | rfl <;> decide
    · intro c hc
      simp only [List.mem_cons, List.not_mem_nil, or_false] at hc
      rcases hc with rfl | rfl <;> norm_num
    · intro c hc s hsres hsne
      simp only [List.mem_cons, List.not_mem_nil, or_false] at hc
      have hr : c.resolved = some [("720p", "u")] := by
        rcases hc with rfl | rfl <;> rfl
      rw [hr] at hsres
      have hss := Option.some.inj hsres
      subst hss
      decide
  · exact C3_restart_budget_amended.2 _ _ [("720p", "u")] (by decide) rfl
      (by decide)

/-- C9 (amended): `stop()` is safe to call when no worker process is
running — it terminates nothing, emits no events, and the worker handle
stays empty — but it is not a state no-op: it unconditionally clears the
recorded Channel Target fields, preserving only the restart timestamp. -/
theorem C9_stop_no_worker (st : SupState) (h : st.current_process = none) :
    stop_stream_processing st =
      ({ current_process := none, current_streamer := none,
         current_quality := none, current_qscale := none,
         current_fps := none, current_scale := none,
         last_restart_time := st.last_restart_time }, []) := by
  rw [stop_stream_processing, h]

/-- C9 (counterexample): with a recorded Channel Target for "alpha" but no
worker handle, `stop()` is not a no-op on the supervisor state: it clears
the recorded target instead of leaving it unchanged. -/
theorem C9_counterexample :
    (⟨none, some "alpha", some "best", some 2, some 1, some 1, 0⟩ :
        SupState).current_process = none ∧
    (stop_stream_processing
        (⟨none, some "alpha", some "best", some 2, some 1, some 1, 0⟩ :
          SupState)).1 ≠
      (⟨none, some "alpha", some "best", some 2, some 1, some 1, 0⟩ :
        SupState) := by
  refine ⟨rfl, ?_⟩
  intro h
  have hstr := congrArg SupState.current_streamer h
  simp [stop_stream_processing] at hstr

/-- C9 witness: stopping with no worker but a recorded pending target. -/
theorem C9_stop_no_worker_witness :
    stop_stream_processing
        (⟨none, some "beta", some "720p", some 4, some 2, some 1, 7⟩ :
          SupState) =
      ({ current_process := none, current_streamer := none,
         current_quality := none, current_qscale := none,
         current_fps := none, current_scale := none,
         last_restart_time := 7 }, []) :=
  C9_stop_no_worker _ rfl
